import Mathlib

/-!
Shallow embedding of the `cdk-eks-karpenter` repository: the `Karpenter`
construct (src/index.ts) together with the parts of its dependencies that
its logic visibly uses (the `semver.lt` comparison from the node `semver`
package, and the CDK cluster surface `addManifest` / `addServiceAccount` /
`addHelmChart` / `awsAuth.addRoleMapping`, modelled as explicit state on a
cluster record).  CDK-generated identifiers (role names, ARNs, service
account names, CloudFormation refs) are modelled as opaque token strings:
the construct never inspects them, it only threads them through.
-/

namespace CEK

/-! ### The node `semver` package: strict parsing and `lt`

`semver.lt(a, b)` parses both strings with the strict (non-loose) FULL
regular expression (`v?MAJOR.MINOR.PATCH(-prerelease)?(+build)?`, numeric
components without leading zeros and at most `MAX_SAFE_INTEGER`), throwing
`Invalid Version` on failure, and compares: major, minor, patch
numerically, then prerelease (a version with a prerelease precedes the
same version without one; identifiers compare pairwise, numeric ones
numerically, numeric before alphanumeric, alphanumeric ones
lexicographically; a shorter identifier list that is a prefix of the
longer one precedes it).  Build metadata is validated but ignored.
A parse failure is modelled as `none`. -/

/-- Prerelease identifier as stored by node-semver: all-digit identifiers
whose value is below `MAX_SAFE_INTEGER` become numbers, the rest stay
strings. -/
inductive PreId where
  | num : Nat → PreId
  | str : String → PreId
deriving DecidableEq, Repr

structure SemVer where
  major : Nat
  minor : Nat
  patch : Nat
  prerelease : List PreId
deriving DecidableEq, Repr

def maxSafeInteger : Nat := 9007199254740991

/-- Characters allowed in semver prerelease/build identifiers:
`[0-9A-Za-z-]`. -/
def isIdentChar (c : Char) : Bool := c.isDigit || c.isAlpha || c == '-'

def digitsToNat (ds : List Char) : Nat :=
  ds.foldl (fun n c => n * 10 + (c.toNat - 48)) 0

/-- `0|[1-9]\d*`: a maximal digit run, nonempty, no leading zero. -/
def parseNumericIdentifier (cs : List Char) : Option (Nat × List Char) :=
  let ds := cs.takeWhile Char.isDigit
  let rest := cs.dropWhile Char.isDigit
  if ds.isEmpty then none
  else if ds.length > 1 && ds.head? == some '0' then none
  else some (digitsToNat ds, rest)

def expectChar (c : Char) : List Char → Option (List Char)
  | [] => none
  | x :: xs => if x == c then some xs else none

/-- The `MAINVERSION` part `(0|[1-9]\d*)\.(0|[1-9]\d*)\.(0|[1-9]\d*)`. -/
def parseMain (cs : List Char) : Option (Nat × Nat × Nat × List Char) :=
  match parseNumericIdentifier cs with
  | none => none
  | some (maj, r1) =>
    match expectChar '.' r1 with
    | none => none
    | some r2 =>
      match parseNumericIdentifier r2 with
      | none => none
      | some (mi, r3) =>
        match expectChar '.' r3 with
        | none => none
        | some r4 =>
          match parseNumericIdentifier r4 with
          | none => none
          | some (pat, r5) => some (maj, mi, pat, r5)

/-- One prerelease identifier, already split at the dots:
`0|[1-9]\d*|\d*[a-zA-Z-][0-9a-zA-Z-]*`, classified the way the `SemVer`
constructor stores it. -/
def parsePreIdent (cs : List Char) : Option PreId :=
  if cs.isEmpty then none
  else if !(cs.all isIdentChar) then none
  else if cs.all Char.isDigit then
    if cs.length > 1 && cs.head? == some '0' then none
    else if digitsToNat cs < maxSafeInteger then some (.num (digitsToNat cs))
    else some (.str (String.mk cs))
  else some (.str (String.mk cs))

def parsePreList (cs : List Char) : Option (List PreId) :=
  (cs.splitOn '.').mapM parsePreIdent

/-- `BUILDIDENTIFIER(\.BUILDIDENTIFIER)*` with `[0-9A-Za-z-]+`. -/
def validBuild (cs : List Char) : Bool :=
  (cs.splitOn '.').all (fun b => !b.isEmpty && b.all isIdentChar)

/-- JS `String.prototype.trim` (restricted to the ASCII whitespace that
`Char.isWhitespace` covers; the construct only ever receives ordinary
version strings). -/
def trimChars (cs : List Char) : List Char :=
  ((cs.dropWhile Char.isWhitespace).reverse.dropWhile Char.isWhitespace).reverse

/-- The `SemVer` constructor on a string: length bound, trim, optional
leading `v`, strict FULL regular expression, `MAX_SAFE_INTEGER` bound on
the numeric components.  `none` models the thrown `Invalid Version` /
`Invalid major version` errors. -/
def parseSemVer (version : String) : Option SemVer :=
  if version.length > 256 then none
  else
    let cs := trimChars version.data
    let cs := match cs with
      | 'v' :: rest => rest
      | other => other
    match parseMain cs with
    | none => none
    | some (maj, mi, pat, rest) =>
      if maj > maxSafeInteger || mi > maxSafeInteger || pat > maxSafeInteger then none
      else
        match rest with
        | [] => some ⟨maj, mi, pat, []⟩
        | '-' :: r =>
          let preChars := r.takeWhile (fun c => c != '+')
          let buildPart := r.dropWhile (fun c => c != '+')
          match parsePreList preChars with
          | none => none
          | some pre =>
            match buildPart with
            | [] => some ⟨maj, mi, pat, pre⟩
            | '+' :: b => if validBuild b then some ⟨maj, mi, pat, pre⟩ else none
            | _ => none
        | '+' :: b => if validBuild b then some ⟨maj, mi, pat, []⟩ else none
        | _ => none

/-- `compareIdentifiers` from node-semver: numbers numerically, a number
before a string, strings by JS `<` (code-unit lexicographic; for the
all-digit identifiers at or above `MAX_SAFE_INTEGER` that stay strings,
JS re-coerces to floats, which this model renders as string comparison —
the constructor only ever compares against `0.17.0`, whose prerelease
list is empty, so pairwise identifier comparison is never reached
there). -/
def compareIdentifiers : PreId → PreId → Int
  | .num a, .num b => if a < b then -1 else if a = b then 0 else 1
  | .num _, .str _ => -1
  | .str _, .num _ => 1
  | .str a, .str b => if a = b then 0 else if a < b then -1 else 1

def comparePreLists : List PreId → List PreId → Int
  | [], [] => 0
  | [], _ :: _ => -1
  | _ :: _, [] => 1
  | a :: as, b :: bs => if a = b then comparePreLists as bs else compareIdentifiers a b

/-- `comparePre`: having a prerelease sorts before not having one; then
pairwise identifier comparison. -/
def comparePre (a b : List PreId) : Int :=
  match a, b with
  | [], [] => 0
  | _ :: _, [] => -1
  | [], _ :: _ => 1
  | _, _ => comparePreLists a b

def compareNats (a b : Nat) : Int := if a < b then -1 else if a = b then 0 else 1

def semverCompare (a b : SemVer) : Int :=
  if a.major ≠ b.major then compareNats a.major b.major
  else if a.minor ≠ b.minor then compareNats a.minor b.minor
  else if a.patch ≠ b.patch then compareNats a.patch b.patch
  else comparePre a.prerelease b.prerelease

/-- `semver.lt(a, b)`; `none` models the throw on an unparsable version. -/
def semverLt (a b : String) : Option Bool :=
  match parseSemVer a, parseSemVer b with
  | some x, some y => some (decide (semverCompare x y < 0))
  | _, _ => none

/-! ### The CDK surface used by the construct

Kubernetes-side resources live on the cluster; IAM-side resources
(`Role`, `CfnInstanceProfile`, `Policy`) are children of the `Karpenter`
construct scope.  `node.addDependency` edges are recorded on the
depending resource as a list of `NodeRef`s; since each edge is added
right after the resource is created and never changed afterwards, the
embedding stores the resource with its final dependency list. -/

/-- A reference to a construct node, the target of `addDependency`. -/
inductive NodeRef where
  | manifest : String → NodeRef
  | serviceAccount : String → NodeRef
  | helmChart : String → NodeRef
deriving DecidableEq, Repr

/-- Free-form JSON-like values: Kubernetes manifest bodies and Helm chart
values. -/
inductive KVal where
  | s : String → KVal
  | b : Bool → KVal
  | o : List (String × KVal) → KVal

/-- A manifest applied with `cluster.addManifest(id, body)`. -/
structure AppliedManifest where
  id : String
  body : KVal
  deps : List NodeRef

/-- A service account added with `cluster.addServiceAccount(id, opts)`.
`serviceAccountName` and `roleArn` are CDK-generated tokens. -/
structure AppliedServiceAccount where
  id : String
  «namespace» : String
  serviceAccountName : String
  roleArn : String
  deps : List NodeRef
deriving DecidableEq, Repr

/-- A chart applied with `cluster.addHelmChart(id, opts)`. -/
structure AppliedHelmChart where
  id : String
  wait : Bool
  chart : String
  release : String
  repository : Option String
  «namespace» : Option String
  version : Option String
  createNamespace : Bool
  values : KVal
  deps : List NodeRef

/-- An `aws-auth` ConfigMap role mapping added with
`cluster.awsAuth.addRoleMapping(role, opts)`; the role is identified by
its ARN. -/
structure RoleMapping where
  roleArn : String
  username : String
  groups : List String
deriving DecidableEq, Repr

/-- The mutable surface of an `eks.Cluster` that the construct touches,
plus the read-only attributes it consumes. -/
structure ClusterState where
  clusterName : String
  clusterEndpoint : String
  manifests : List AppliedManifest
  serviceAccounts : List AppliedServiceAccount
  helmCharts : List AppliedHelmChart
  authRoleMappings : List RoleMapping

/-- `iam.Role`: the assume-role service principal and the attached managed
policy names; `roleName`/`roleArn` are CDK-generated tokens. -/
structure Role where
  assumedBy : String
  managedPolicies : List String
  roleName : String
  roleArn : String
deriving DecidableEq, Repr

/-- `iam.CfnInstanceProfile`; `ref` is the CloudFormation `Ref` token. -/
structure CfnInstanceProfile where
  roles : List String
  instanceProfileName : String
  ref : String
deriving DecidableEq, Repr

structure PolicyStatement where
  actions : List String
  resources : List String
deriving DecidableEq, Repr

/-- `iam.Policy` attached to a list of roles (by ARN). -/
structure Policy where
  roles : List String
  statements : List PolicyStatement
deriving DecidableEq, Repr

/-- An opaque deploy-time token; the construct never inspects these, it
only passes them along. -/
def token (path : String) : String := "<token:" ++ path ++ ">"

/-- The CDK `Aws.URL_SUFFIX` pseudo-parameter token. -/
def awsUrlSuffix : String := token "AWS.URL_SUFFIX"

/-! ### The Karpenter construct (src/index.ts) -/

structure KarpenterProps where
  cluster : ClusterState
  «namespace» : Option String
  version : Option String
  helmRepository : Option String

/-- The `Karpenter` construct after its constructor ran.  `cluster` is the
construct's public `cluster` field: the very cluster passed in `props`,
carrying the resources the constructor added to it.  `serviceAccount`,
`instanceProfile` and `controllerPolicy` are locals of the constructor in
the source, kept here so the declared IAM/Kubernetes resources are
visible. -/
structure Karpenter where
  cluster : ClusterState
  «namespace» : String
  version : Option String
  helmRepository : String
  nodeRole : Role
  instanceProfile : CfnInstanceProfile
  serviceAccount : AppliedServiceAccount
  controllerPolicy : Policy
  chart : AppliedHelmChart

/-- Lines 206-218 of the constructor: an explicit `helmRepository` wins;
otherwise pick the legacy chart repository when a version is given and
the version is semver-below 0.17.0, the current OCI repository in every
other case.  `semver.lt` throws on an unparsable version (`.error`). -/
def selectHelmRepository (version helmRepository : Option String) : Except String String :=
  match helmRepository with
  | some r => .ok r
  | none =>
    match version with
    | some v =>
      match semverLt v "0.17.0" with
      | some true => .ok "https://charts.karpenter.sh"
      | some false => .ok "oci://public.ecr.aws/karpenter"
      | none => .error ("Invalid Version: " ++ v)
    | none => .ok "oci://public.ecr.aws/karpenter"

/-- Body of `cluster.addManifest('namespace', ...)`. -/
def namespaceManifestBody (name : String) : KVal :=
  .o [("apiVersion", .s "v1"),
      ("kind", .s "Namespace"),
      ("metadata", .o [("name", .s name)])]

/-- The `values` object of the Helm chart. -/
def chartValues (saName saRoleArn clusterName clusterEndpoint profileRef : String) : KVal :=
  .o [("serviceAccount", .o [
        ("create", .b false),
        ("name", .s saName),
        ("annotations", .o [("eks.amazonaws.com/role-arn", .s saRoleArn)])]),
      ("clusterName", .s clusterName),
      ("clusterEndpoint", .s clusterEndpoint),
      ("aws", .o [("defaultInstanceProfile", .s profileRef)])]

/-- The 17 wide permissions of the first controller policy statement. -/
def controllerActions : List String :=
  ["ec2:CreateFleet", "ec2:CreateLaunchTemplate", "ec2:CreateTags",
   "ec2:DeleteLaunchTemplate", "ec2:RunInstances", "ec2:TerminateInstances",
   "ec2:DescribeAvailabilityZones", "ec2:DescribeImages", "ec2:DescribeInstances",
   "ec2:DescribeInstanceTypeOfferings", "ec2:DescribeInstanceTypes",
   "ec2:DescribeLaunchTemplates", "ec2:DescribeSecurityGroups",
   "ec2:DescribeSpotPriceHistory", "ec2:DescribeSubnets",
   "pricing:GetProducts", "ssm:GetParameter"]

/-- The straight-line part of the constructor body: once the repository
is selected, declare the resources in source order: node role, instance
profile, aws-auth role mapping, namespace manifest, service account
(made dependent on the namespace manifest), controller policy, Helm
chart (made dependent on the namespace manifest), threading the cluster
state through. -/
def karpenterBuild (id : String) (props : KarpenterProps) (helmRepository : String) : Karpenter :=
  let ns := props.«namespace».getD "karpenter"
  let nodeRole : Role :=
    { assumedBy := "ec2." ++ awsUrlSuffix,
      managedPolicies :=
        ["AmazonEKS_CNI_Policy", "AmazonEKSWorkerNodePolicy",
         "AmazonEC2ContainerRegistryReadOnly", "AmazonSSMManagedInstanceCore"],
      roleName := token (id ++ "/NodeRole.roleName"),
      roleArn := token (id ++ "/NodeRole.roleArn") }
  let instanceProfile : CfnInstanceProfile :=
    { roles := [nodeRole.roleName],
      instanceProfileName := props.cluster.clusterName ++ "-" ++ id,
      ref := token (id ++ "/InstanceProfile.ref") }
  let cluster1 : ClusterState :=
    { props.cluster with
      authRoleMappings := props.cluster.authRoleMappings ++
        [{ roleArn := nodeRole.roleArn,
           username := "system:node:\x7b\x7bEC2PrivateDNSName\x7d\x7d",
           groups := ["system:bootstrappers", "system:nodes"] }] }
  let namespaceManifest : AppliedManifest :=
    { id := "namespace", body := namespaceManifestBody ns, deps := [] }
  let cluster2 : ClusterState :=
    { cluster1 with manifests := cluster1.manifests ++ [namespaceManifest] }
  let serviceAccount : AppliedServiceAccount :=
    { id := "karpenter",
      «namespace» := ns,
      serviceAccountName := token (id ++ "/karpenter-sa.serviceAccountName"),
      roleArn := token (id ++ "/karpenter-sa.role.roleArn"),
      -- serviceAccount.node.addDependency(namespace)
      deps := [.manifest "namespace"] }
  let cluster3 : ClusterState :=
    { cluster2 with serviceAccounts := cluster2.serviceAccounts ++ [serviceAccount] }
  let controllerPolicy : Policy :=
    { roles := [serviceAccount.roleArn],
      statements :=
        [{ actions := controllerActions, resources := ["*"] },
         { actions := ["iam:PassRole"], resources := [nodeRole.roleArn] }] }
  let chart : AppliedHelmChart :=
    { id := "karpenter",
      wait := true,
      chart := "karpenter",
      release := "karpenter",
      repository := some helmRepository,
      «namespace» := some ns,
      version := props.version,
      createNamespace := false,
      values := chartValues serviceAccount.serviceAccountName serviceAccount.roleArn
        props.cluster.clusterName props.cluster.clusterEndpoint instanceProfile.ref,
      -- this.chart.node.addDependency(namespace)
      deps := [.manifest "namespace"] }
  let cluster4 : ClusterState :=
    { cluster3 with helmCharts := cluster3.helmCharts ++ [chart] }
  { cluster := cluster4,
    «namespace» := ns,
    version := props.version,
    helmRepository := helmRepository,
    nodeRole := nodeRole,
    instanceProfile := instanceProfile,
    serviceAccount := serviceAccount,
    controllerPolicy := controllerPolicy,
    chart := chart }

/-- The `Karpenter` constructor, `constructor(scope, id, props)`.  The
only fallible step is the `semver.lt` call inside the repository
selection (it throws on an unparsable version); the rest of the body is
`karpenterBuild`. -/
def karpenterConstructor (id : String) (props : KarpenterProps) : Except String Karpenter :=
  match selectHelmRepository props.version props.helmRepository with
  | .error e => .error e
  | .ok helmRepository => .ok (karpenterBuild id props helmRepository)

/-- Body of the `Provisioner` manifest built by `addProvisioner`: the
literal `m` with `m.spec = provisionerSpec` assigned. -/
def provisionerManifestBody (id ns : String) (provisionerSpec : KVal) : KVal :=
  .o [("apiVersion", .s "karpenter.sh/v1alpha5"),
      ("kind", .s "Provisioner"),
      ("metadata", .o [("name", .s id), ("namespace", .s ns)]),
      ("spec", provisionerSpec)]

/-- `addProvisioner(id, provisionerSpec)`: apply one manifest to
`this.cluster` and make it depend on `this.chart`. -/
def Karpenter.addProvisioner (k : Karpenter) (id : String) (provisionerSpec : KVal) : Karpenter :=
  let provisioner : AppliedManifest :=
    { id := id,
      body := provisionerManifestBody id k.«namespace» provisionerSpec,
      -- provisioner.node.addDependency(this.chart)
      deps := [.helmChart k.chart.id] }
  { k with cluster := { k.cluster with manifests := k.cluster.manifests ++ [provisioner] } }

/-- The cluster of the test suite, with nothing applied yet. -/
def testCluster : ClusterState :=
  { clusterName := "testcluster",
    clusterEndpoint := token "testcluster.clusterEndpoint",
    manifests := [],
    serviceAccounts := [],
    helmCharts := [],
    authRoleMappings := [] }

/-! ### Helper lemmas -/

theorem karpenterConstructor_ok_elim (id : String) (props : KarpenterProps) (k : Karpenter)
    (hok : karpenterConstructor id props = .ok k) :
    ∃ repo, selectHelmRepository props.version props.helmRepository = Except.ok repo ∧
      k = karpenterBuild id props repo := by
  unfold karpenterConstructor at hok
  cases h : selectHelmRepository props.version props.helmRepository with
  | error e => rw [h] at hok; cases hok
  | ok r => rw [h] at hok; cases hok; exact ⟨r, rfl, rfl⟩

theorem karpenterBuild_namespace (id : String) (props : KarpenterProps) (r : String) :
    (karpenterBuild id props r).«namespace» = props.«namespace».getD "karpenter" := rfl

theorem karpenterBuild_helmRepository (id : String) (props : KarpenterProps) (r : String) :
    (karpenterBuild id props r).helmRepository = r := rfl

theorem karpenterBuild_chart_repository (id : String) (props : KarpenterProps) (r : String) :
    (karpenterBuild id props r).chart.repository = some r := rfl

theorem karpenterBuild_chart_version (id : String) (props : KarpenterProps) (r : String) :
    (karpenterBuild id props r).chart.version = props.version := rfl

theorem karpenterBuild_chart_namespace (id : String) (props : KarpenterProps) (r : String) :
    (karpenterBuild id props r).chart.«namespace» =
      some (props.«namespace».getD "karpenter") := rfl

theorem selectHelmRepository_some (version : Option String) (r : String) :
    selectHelmRepository version (some r) = .ok r := rfl

theorem selectHelmRepository_none_none :
    selectHelmRepository none none = .ok "oci://public.ecr.aws/karpenter" := rfl

theorem selectHelmRepository_version (v : String) :
    selectHelmRepository (some v) none =
      match semverLt v "0.17.0" with
      | some true => .ok "https://charts.karpenter.sh"
      | some false => .ok "oci://public.ecr.aws/karpenter"
      | none => .error ("Invalid Version: " ++ v) := rfl

theorem parseSemVer_threshold : parseSemVer "0.17.0" = some ⟨0, 17, 0, []⟩ := by decide

theorem semverLt_none_iff (v : String) :
    semverLt v "0.17.0" = none ↔ parseSemVer v = none := by
  unfold semverLt
  rw [parseSemVer_threshold]
  cases parseSemVer v <;> simp

/-! ### The claims -/

/-- Claim C1: when `props.helmRepository` is undefined and `props.version`
is defined, a construction that completes selects the legacy chart
repository `https://charts.karpenter.sh` exactly when the version is
semver-strictly-below `0.17.0`, and `oci://public.ecr.aws/karpenter` in
every other case (so in particular for `v0.17.0` itself) — both for the
construct's `helmRepository` field and for the repository of the declared
Helm chart. -/
theorem C1_repository_threshold (id : String) (props : KarpenterProps) (v : String)
    (k : Karpenter) (hrep : props.helmRepository = none) (hver : props.version = some v)
    (hok : karpenterConstructor id props = .ok k) :
    (semverLt v "0.17.0" = some true →
      k.helmRepository = "https://charts.karpenter.sh" ∧
      k.chart.repository = some "https://charts.karpenter.sh") ∧
    (semverLt v "0.17.0" ≠ some true →
      k.helmRepository = "oci://public.ecr.aws/karpenter" ∧
      k.chart.repository = some "oci://public.ecr.aws/karpenter") := by
  obtain ⟨repo, hsel, hk⟩ := karpenterConstructor_ok_elim id props k hok
  subst hk
  rw [hver, hrep, selectHelmRepository_version] at hsel
  cases hlt : semverLt v "0.17.0" with
  | none => rw [hlt] at hsel; exact nomatch hsel
  | some b =>
    rw [hlt] at hsel
    cases b with
    | false =>
      simp only [Except.ok.injEq] at hsel
      subst hsel
      exact ⟨fun h => (nomatch h), fun _ => ⟨rfl, rfl⟩⟩
    | true =>
      simp only [Except.ok.injEq] at hsel
      subst hsel
      exact ⟨fun _ => ⟨rfl, rfl⟩, fun h => absurd rfl h⟩

/-- Witness for C1: with version `v0.17.0` (not strictly below the
threshold) the current OCI repository is selected. -/
theorem C1_repository_threshold_witness :
    (karpenterBuild "Karpenter" ⟨testCluster, none, some "v0.17.0", none⟩
        "oci://public.ecr.aws/karpenter").helmRepository = "oci://public.ecr.aws/karpenter" ∧
    (karpenterBuild "Karpenter" ⟨testCluster, none, some "v0.17.0", none⟩
        "oci://public.ecr.aws/karpenter").chart.repository =
      some "oci://public.ecr.aws/karpenter" :=
  (C1_repository_threshold "Karpenter" ⟨testCluster, none, some "v0.17.0", none⟩ "v0.17.0"
    _ rfl rfl rfl).2 (by decide)

/-- Claim C2: a construction that completes wires the dependency edges of
the source: the service account and the Helm chart each depend on the
namespace manifest (the single manifest the constructor applied), and
every manifest added by `addProvisioner` depends on the Helm chart. -/
theorem C2_dependency_order (id : String) (props : KarpenterProps) (k : Karpenter)
    (hok : karpenterConstructor id props = .ok k) :
    k.serviceAccount.deps = [NodeRef.manifest "namespace"] ∧
    k.chart.deps = [NodeRef.manifest "namespace"] ∧
    (∃ nm, k.cluster.manifests = props.cluster.manifests ++ [nm] ∧
      nm.id = "namespace" ∧ nm.body = namespaceManifestBody k.«namespace») ∧
    (∀ pid spec, ∃ p, (k.addProvisioner pid spec).cluster.manifests =
      k.cluster.manifests ++ [p] ∧ p.deps = [NodeRef.helmChart k.chart.id] ∧
      k.chart.id = "karpenter") := by
  obtain ⟨repo, -, hk⟩ := karpenterConstructor_ok_elim id props k hok
  subst hk
  exact ⟨rfl, rfl, ⟨_, rfl, rfl, rfl⟩, fun pid spec => ⟨_, rfl, rfl, rfl⟩⟩

/-- Witness for C2 on the test cluster with default props. -/
theorem C2_dependency_order_witness :
    (karpenterBuild "Karpenter" ⟨testCluster, none, none, none⟩
        "oci://public.ecr.aws/karpenter").serviceAccount.deps = [NodeRef.manifest "namespace"] ∧
    (karpenterBuild "Karpenter" ⟨testCluster, none, none, none⟩
        "oci://public.ecr.aws/karpenter").chart.deps = [NodeRef.manifest "namespace"] :=
  ⟨(C2_dependency_order "Karpenter" ⟨testCluster, none, none, none⟩ _ rfl).1,
   (C2_dependency_order "Karpenter" ⟨testCluster, none, none, none⟩ _ rfl).2.1⟩

/-- Counterexample to claim C3: with no explicit repository and the
unparsable version string `banana`, the constructor does not complete;
the `semver.lt` call inside it raises `Invalid Version`. -/
theorem C3_counterexample :
    karpenterConstructor "Karpenter" ⟨testCluster, none, some "banana", none⟩ =
      .error "Invalid Version: banana" := rfl

/-- Claim C3 as amended: the construct adds no failure handling of its
own, and the constructor completes exactly when it never reaches
`semver.lt` on an unparsable version: an explicit `helmRepository` is
given, or no version is given, or the given version is a valid semver
string.  In the one remaining case the `semver.lt` library call raises. -/
theorem C3_no_own_failure_handling (id : String) (props : KarpenterProps) :
    (∃ k, karpenterConstructor id props = .ok k) ↔
      (props.helmRepository = none →
        ∀ v, props.version = some v → (parseSemVer v).isSome) := by
  unfold karpenterConstructor
  cases hrep : props.helmRepository with
  | some r => simp [selectHelmRepository, hrep]
  | none =>
    cases hver : props.version with
    | none => simp [selectHelmRepository, hrep, hver]
    | some v =>
      cases hlt : semverLt v "0.17.0" with
      | none =>
        have hp : parseSemVer v = none := (semverLt_none_iff v).mp hlt
        simp [selectHelmRepository, hrep, hver, hlt, hp]
      | some b =>
        have hp : (parseSemVer v).isSome := by
          cases h : parseSemVer v with
          | none => rw [(semverLt_none_iff v).mpr h] at hlt; cases hlt
          | some x => rfl
        cases b <;> simp [selectHelmRepository, hrep, hver, hlt, hp]

/-- Witness for C3 as amended: a valid version with no explicit
repository constructs. -/
theorem C3_no_own_failure_handling_witness :
    ∃ k, karpenterConstructor "Karpenter" ⟨testCluster, none, some "v0.6.0", none⟩ =
      .ok k :=
  (C3_no_own_failure_handling "Karpenter" ⟨testCluster, none, some "v0.6.0", none⟩).mpr
    (fun _ v hv => by injection hv with h; subst h; decide)

/-- Claim C4: configured fields reach the declared Helm chart untouched:
its version is exactly `props.version`, and a configured namespace or
repository appears on the chart character for character. -/
theorem C4_passthrough (id : String) (props : KarpenterProps) (k : Karpenter)
    (hok : karpenterConstructor id props = .ok k) :
    k.chart.version = props.version ∧
    (∀ n, props.«namespace» = some n → k.chart.«namespace» = some n) ∧
    (∀ r, props.helmRepository = some r → k.chart.repository = some r) := by
  obtain ⟨repo, hsel, hk⟩ := karpenterConstructor_ok_elim id props k hok
  subst hk
  refine ⟨rfl, fun n hn => ?_, fun r hr => ?_⟩
  · rw [karpenterBuild_chart_namespace, hn]; rfl
  · rw [hr, selectHelmRepository_some] at hsel
    injection hsel with h
    rw [karpenterBuild_chart_repository, h]

/-- Witness for C4 with all three fields configured. -/
theorem C4_passthrough_witness :
    (karpenterBuild "Karpenter"
        ⟨testCluster, some "kar-penter", some "v0.6.0", some "oci://repository.test.url"⟩
        "oci://repository.test.url").chart.version = some "v0.6.0" ∧
    (karpenterBuild "Karpenter"
        ⟨testCluster, some "kar-penter", some "v0.6.0", some "oci://repository.test.url"⟩
        "oci://repository.test.url").chart.«namespace» = some "kar-penter" ∧
    (karpenterBuild "Karpenter"
        ⟨testCluster, some "kar-penter", some "v0.6.0", some "oci://repository.test.url"⟩
        "oci://repository.test.url").chart.repository = some "oci://repository.test.url" := by
  obtain ⟨h1, h2, h3⟩ := C4_passthrough "Karpenter"
    ⟨testCluster, some "kar-penter", some "v0.6.0", some "oci://repository.test.url"⟩ _ rfl
  exact ⟨h1, h2 "kar-penter" rfl, h3 "oci://repository.test.url" rfl⟩

/-- Claim C5: a construction that completes declares exactly the fixed
resource set: the node role assumable by the EC2 service principal with
exactly the four managed policies, the instance profile containing that
role and named after the cluster and the construct id, the single
aws-auth role mapping for that role, the namespace manifest, the service
account in the construct's namespace, the controller policy whose
`iam:PassRole` statement is restricted to the node role's ARN, and the
Helm chart — and nothing else. -/
theorem C5_declared_resources (id : String) (props : KarpenterProps) (k : Karpenter)
    (hok : karpenterConstructor id props = .ok k) :
    k.nodeRole.assumedBy = "ec2." ++ awsUrlSuffix ∧
    k.nodeRole.managedPolicies =
      ["AmazonEKS_CNI_Policy", "AmazonEKSWorkerNodePolicy",
       "AmazonEC2ContainerRegistryReadOnly", "AmazonSSMManagedInstanceCore"] ∧
    k.instanceProfile.roles = [k.nodeRole.roleName] ∧
    k.instanceProfile.instanceProfileName = props.cluster.clusterName ++ "-" ++ id ∧
    k.cluster.authRoleMappings = props.cluster.authRoleMappings ++
      [⟨k.nodeRole.roleArn, "system:node:\x7b\x7bEC2PrivateDNSName\x7d\x7d",
        ["system:bootstrappers", "system:nodes"]⟩] ∧
    k.cluster.manifests = props.cluster.manifests ++
      [⟨"namespace", namespaceManifestBody k.«namespace», []⟩] ∧
    k.cluster.serviceAccounts = props.cluster.serviceAccounts ++ [k.serviceAccount] ∧
    k.serviceAccount.«namespace» = k.«namespace» ∧
    k.controllerPolicy.roles = [k.serviceAccount.roleArn] ∧
    k.controllerPolicy.statements =
      [⟨controllerActions, ["*"]⟩, ⟨["iam:PassRole"], [k.nodeRole.roleArn]⟩] ∧
    k.cluster.helmCharts = props.cluster.helmCharts ++ [k.chart] := by
  obtain ⟨repo, -, hk⟩ := karpenterConstructor_ok_elim id props k hok
  subst hk
  exact ⟨rfl, rfl, rfl, rfl, rfl, rfl, rfl, rfl, rfl, rfl, rfl⟩

/-- Witness for C5: the instance profile name on the test cluster. -/
theorem C5_declared_resources_witness :
    (karpenterBuild "Karpenter" ⟨testCluster, none, none, none⟩
        "oci://public.ecr.aws/karpenter").instanceProfile.instanceProfileName =
      "testcluster-Karpenter" := by
  have h := (C5_declared_resources "Karpenter" ⟨testCluster, none, none, none⟩ _ rfl).2.2.2.1
  simpa using h

/-- Claim C6: the construct attaches only to the cluster it was given:
its `cluster` field is that cluster, whose identity is untouched and
whose resource lists change only by the resources the constructor
appended (one manifest, one service account, one Helm chart, one
aws-auth role mapping); `addProvisioner` likewise only appends one
manifest to that same cluster. -/
theorem C6_cluster_frame (id : String) (props : KarpenterProps) (k : Karpenter)
    (hok : karpenterConstructor id props = .ok k) :
    k.cluster.clusterName = props.cluster.clusterName ∧
    k.cluster.clusterEndpoint = props.cluster.clusterEndpoint ∧
    (∃ nm, k.cluster.manifests = props.cluster.manifests ++ [nm]) ∧
    (∃ sa, k.cluster.serviceAccounts = props.cluster.serviceAccounts ++ [sa]) ∧
    (∃ hc, k.cluster.helmCharts = props.cluster.helmCharts ++ [hc]) ∧
    (∃ rm, k.cluster.authRoleMappings = props.cluster.authRoleMappings ++ [rm]) ∧
    (∀ pid spec, ∃ p, (k.addProvisioner pid spec).cluster =
      { k.cluster with manifests := k.cluster.manifests ++ [p] }) := by
  obtain ⟨repo, -, hk⟩ := karpenterConstructor_ok_elim id props k hok
  subst hk
  exact ⟨rfl, rfl, ⟨_, rfl⟩, ⟨_, rfl⟩, ⟨_, rfl⟩, ⟨_, rfl⟩, fun pid spec => ⟨_, rfl⟩⟩

/-- Witness for C6: cluster identity is preserved on the test cluster. -/
theorem C6_cluster_frame_witness :
    (karpenterBuild "Karpenter" ⟨testCluster, none, none, none⟩
        "oci://public.ecr.aws/karpenter").cluster.clusterName = testCluster.clusterName :=
  (C6_cluster_frame "Karpenter" ⟨testCluster, none, none, none⟩ _ rfl).1

/-- Claim C7: defaults at the public interface: an undefined
`props.namespace` yields the namespace `karpenter` everywhere (construct
field, chart, service account, namespace manifest); an undefined
`props.version` always completes, declares a chart with no version (the
latest), and, when no repository is configured either, defaults the
repository to the current OCI endpoint with no semver comparison
involved. -/
theorem C7_defaults :
    (∀ id props k, props.«namespace» = none →
      karpenterConstructor id props = .ok k →
      k.«namespace» = "karpenter" ∧
      k.chart.«namespace» = some "karpenter" ∧
      k.serviceAccount.«namespace» = "karpenter" ∧
      k.cluster.manifests = props.cluster.manifests ++
        [⟨"namespace", namespaceManifestBody "karpenter", []⟩]) ∧
    (∀ id props, props.version = none →
      ∃ k, karpenterConstructor id props = .ok k ∧ k.chart.version = none ∧
        (props.helmRepository = none →
          k.helmRepository = "oci://public.ecr.aws/karpenter")) := by
  constructor
  · intro id props k hns hok
    obtain ⟨repo, -, hk⟩ := karpenterConstructor_ok_elim id props k hok
    subst hk
    refine ⟨?_, ?_, ?_, ?_⟩ <;>
      simp [karpenterBuild, namespaceManifestBody, hns]
  · intro id props hver
    cases hrep : props.helmRepository with
    | some r =>
      refine ⟨karpenterBuild id props r, ?_, ?_, ?_⟩
      · unfold karpenterConstructor
        rw [hrep, selectHelmRepository_some]
      · rw [karpenterBuild_chart_version, hver]
      · intro h; exact nomatch h
    | none =>
      refine ⟨karpenterBuild id props "oci://public.ecr.aws/karpenter", ?_, ?_, ?_⟩
      · unfold karpenterConstructor
        rw [hrep, hver, selectHelmRepository_none_none]
      · rw [karpenterBuild_chart_version, hver]
      · intro h; exact karpenterBuild_helmRepository id props _

/-- Witness for C7 with nothing configured on the test cluster. -/
theorem C7_defaults_witness :
    ∃ k, karpenterConstructor "Karpenter" ⟨testCluster, none, none, none⟩ = .ok k ∧
      k.chart.version = none ∧
      ((⟨testCluster, none, none, none⟩ : KarpenterProps).helmRepository = none →
        k.helmRepository = "oci://public.ecr.aws/karpenter") :=
  C7_defaults.2 "Karpenter" ⟨testCluster, none, none, none⟩ rfl

/-- Claim C8: an explicit repository always wins: whenever
`props.helmRepository` is defined the constructor completes — for every
version value, parsable or not, since the semver comparison is never
reached — and both the construct's `helmRepository` and the chart's
repository are exactly the configured string. -/
theorem C8_explicit_repository_wins (id : String) (props : KarpenterProps) (r : String)
    (h : props.helmRepository = some r) :
    ∃ k, karpenterConstructor id props = .ok k ∧ k.helmRepository = r ∧
      k.chart.repository = some r := by
  refine ⟨karpenterBuild id props r, ?_, rfl, rfl⟩
  unfold karpenterConstructor
  rw [h, selectHelmRepository_some]

/-- Witness for C8: an unparsable version string together with an
explicit repository still constructs, with that repository. -/
theorem C8_explicit_repository_wins_witness :
    ∃ k, karpenterConstructor "Karpenter"
        ⟨testCluster, none, some "not-a-semver", some "oci://repository.test.url"⟩ = .ok k ∧
      k.helmRepository = "oci://repository.test.url" ∧
      k.chart.repository = some "oci://repository.test.url" :=
  C8_explicit_repository_wins "Karpenter"
    ⟨testCluster, none, some "not-a-semver", some "oci://repository.test.url"⟩
    "oci://repository.test.url" rfl

/-- Claim C9: `addProvisioner(id, provisionerSpec)` appends to the
cluster exactly one manifest — apiVersion `karpenter.sh/v1alpha5`, kind
`Provisioner`, metadata name `id`, metadata namespace the construct's
namespace, spec the given `provisionerSpec` unchanged, depending on the
Helm chart — and leaves every other resource and field untouched. -/
theorem C9_addProvisioner_shape (k : Karpenter) (id : String) (provisionerSpec : KVal) :
    (k.addProvisioner id provisionerSpec).cluster.manifests =
      k.cluster.manifests ++
        [⟨id,
          KVal.o [("apiVersion", .s "karpenter.sh/v1alpha5"),
                  ("kind", .s "Provisioner"),
                  ("metadata", .o [("name", .s id), ("namespace", .s k.«namespace»)]),
                  ("spec", provisionerSpec)],
          [NodeRef.helmChart k.chart.id]⟩] ∧
    (k.addProvisioner id provisionerSpec).cluster.serviceAccounts =
      k.cluster.serviceAccounts ∧
    (k.addProvisioner id provisionerSpec).cluster.helmCharts = k.cluster.helmCharts ∧
    (k.addProvisioner id provisionerSpec).cluster.authRoleMappings =
      k.cluster.authRoleMappings ∧
    (k.addProvisioner id provisionerSpec).cluster.clusterName = k.cluster.clusterName ∧
    (k.addProvisioner id provisionerSpec).cluster.clusterEndpoint =
      k.cluster.clusterEndpoint ∧
    (k.addProvisioner id provisionerSpec).«namespace» = k.«namespace» ∧
    (k.addProvisioner id provisionerSpec).version = k.version ∧
    (k.addProvisioner id provisionerSpec).helmRepository = k.helmRepository ∧
    (k.addProvisioner id provisionerSpec).nodeRole = k.nodeRole ∧
    (k.addProvisioner id provisionerSpec).instanceProfile = k.instanceProfile ∧
    (k.addProvisioner id provisionerSpec).serviceAccount = k.serviceAccount ∧
    (k.addProvisioner id provisionerSpec).controllerPolicy = k.controllerPolicy ∧
    (k.addProvisioner id provisionerSpec).chart = k.chart :=
  ⟨rfl, rfl, rfl, rfl, rfl, rfl, rfl, rfl, rfl, rfl, rfl, rfl, rfl, rfl⟩

end CEK

example : CEK.semverLt "v0.6.0" "0.17.0" = some true := by decide
example : CEK.semverLt "v0.17.0" "0.17.0" = some false := by decide
example : CEK.semverLt "0.18.1" "0.17.0" = some false := by decide
example : CEK.semverLt "banana" "0.17.0" = none := by decide
example : CEK.semverLt "0.17.0-rc.1" "0.17.0" = some true := by decide
example : CEK.parseSemVer "1.2.3-alpha.1+build.5" =
    some ⟨1, 2, 3, [.str "alpha", .num 1]⟩ := by decide
example : CEK.parseSemVer "1.2.3-01" = none := by decide
example : CEK.parseSemVer "01.2.3" = none := by decide
